import Mathlib

/-!
# Verification of the opengate actor-output subsystem

Shallow embedding of `src/opengate/actors/actoroutput.py` (classes
`ActorOutputBase`, `ActorOutputUsingDataItemContainer`, `ActorOutputRoot`,
`ActorOutputCppImage`) together with spec-modelled stand-ins for the
collaborator modules that the repository imports but that are not part of
the examined sources (`opengate.utility.insert_suffix_before_extension`,
`opengate.exception.fatal` and `warning`, `opengate.actors.dataitems`,
`Simulation.get_output_path`).

Python machine behaviour modelled explicitly:
* exceptions (`fatal`, `KeyError`, `AttributeError`, `TypeError`,
  `IndexError`, shape errors from the data layer) become `Except GateError`;
* the varargs tuple of `store_data(self, which, *data)` becomes an explicit
  `PyObj.tuple` value, so that the source's `isinstance(data, ...)` test is
  embedded faithfully (it inspects the tuple, not its element);
* the f-string `f"run{run_index:04f}"` becomes `pyFormat04f`, the exact
  rendering Python produces for the (small) integer run indices that occur
  here: the fixed-point text of the number with six decimals, never shorter
  than 8 characters, so the width-4 zero padding never applies;
* Python `dict` state (`data_per_run`) becomes an insertion-ordered
  association list with overwrite-in-place, `pop`, and lookup.
-/

/-- Errors that can abort an embedded operation. Each constructor stands for
one way the Python code can fail: `fatalError` for `opengate.exception.fatal`
(modelled from the spec: fatal is process-terminating, it raises), and the
rest for ordinary Python exceptions or the typed data-layer errors named in
the spec. -/
inductive GateError where
  | fatalError
  | keyError
  | attributeError
  | typeError
  | indexError
  | incompatibleShape
  | emptyPayload
deriving DecidableEq, Repr

/-- Identifier of a slot in `data_write_config`: Python dict keys there are
either small ints (e.g. `0`) or strings (e.g. `"numerator"`). -/
inductive ItemId where
  | num (n : Nat)
  | str (s : String)
deriving DecidableEq, Repr

/-- One entry of `data_write_config`: a per-slot suffix (possibly `None`)
and the `write_to_disk` flag. -/
structure WriteEntry where
  suffix : Option String
  write_to_disk : Bool
deriving DecidableEq, Repr

/-- The `which` argument: either a Python `int` or a Python `str`. -/
inductive Which where
  | num (n : Int)
  | str (s : String)
deriving DecidableEq, Repr

/-- Python `which == "someliteral"`: an int never equals a string. -/
def Which.eqStr : Which → String → Bool
  | .num _, _ => false
  | .str s, t => s = t

/-- Value of a run of decimal digits; `none` if empty or any non-digit. -/
def digitsVal (cs : List Char) : Option Nat :=
  match cs with
  | [] => none
  | _ =>
    cs.foldl
      (fun acc c =>
        acc.bind fun a => if c.isDigit then some (a * 10 + (c.toNat - 48)) else none)
      (some 0)

/-- Models Python `int(x)` on the values `which` can take: an int converts to
itself; a string parses as an optionally signed run of digits, anything else
(e.g. `"merged"`, `"bogus"`) raises `ValueError`, modelled as `none`. -/
def pyInt : Which → Option Int
  | .num n => some n
  | .str s =>
    match s.data with
    | '-' :: rest => (digitsVal rest).map (fun v => -(v : Int))
    | '+' :: rest => (digitsVal rest).map (fun v => (v : Int))
    | cs => (digitsVal cs).map (fun v => (v : Int))

/-- Models the Python f-string fragment produced by `f"run{run_index:04f}"`
for an integer run index: the `f` conversion renders the number in fixed
point with six decimals (`3` ↦ `"3.000000"`), and since that text is always
at least 8 characters long, the `04` width/zero-fill part never changes it.
Exact for every run index small enough to be a float-representable integer,
which covers all run indices in practice. -/
def pyFormat04f (n : Int) : String :=
  toString n ++ ".000000"

/-- Splits a character list at its last dot: returns the part before and the
part after; `none` when there is no dot. -/
def splitAtLastDot : List Char → Option (List Char × List Char)
  | [] => none
  | c :: cs =>
    match splitAtLastDot cs with
    | some (pre, post) => some (c :: pre, post)
    | none => if c = '.' then some ([], cs) else none

/-- Modelled from the spec: `opengate.utility.insert_suffix_before_extension`
is not part of the examined sources. Per the spec, base path `name.ext` plus
suffix `s` yields `name_s.ext`; a `None` suffix leaves the path unmodified;
a path without an extension gets the suffix appended after `_`. -/
def insert_suffix_before_extension (path : String) : Option String → String
  | none => path
  | some sfx =>
    match splitAtLastDot path.data with
    | some (stem, ext) => String.mk stem ++ "_" ++ sfx ++ "." ++ String.mk ext
    | none => path ++ "_" ++ sfx

/-- Modelled from the spec: `Simulation.get_output_path` (the simulation
object is an out-of-scope collaborator) resolves a relative filename against
the global output directory. -/
def sim_get_output_path (output_dir filename : String) : String :=
  output_dir ++ filename

/-- A Python value that can be stored into an actor output: a raw numeric
array (image payload, values modelled as rationals — the concrete values in
the examined scenarios, 1.0/3.0/4.0, are exactly representable either way),
a tuple of such values (the varargs tuple), or an already-wrapped
`DataItemContainer` instance carrying its owner reference and wrapped data. -/
inductive PyObj where
  | rawArray (xs : List ℚ)
  | tuple (xs : List PyObj)
  | containerObj (owner : String) (data : PyObj)

/-- Modelled from the spec: `DataItemContainer` (from the module
`opengate.actors.dataitems`, which is not among the examined sources) wraps
the stored data together with `owner_reference`, the back-reference to the
owning `ActorOutput`, here recorded by that output's name. -/
structure ContainerData where
  owner : String
  data : PyObj

/-- Python `isinstance(x, DataItemContainer-subclass)`. -/
def asContainer : PyObj → Option ContainerData
  | .containerObj b d => some (ContainerData.mk b d)
  | _ => none

/-- Embed a container back into the Python value universe. -/
def ContainerData.toObj (c : ContainerData) : PyObj :=
  PyObj.containerObj c.owner c.data

/-- Modelled from the spec: elementwise in-place sum of two single array
slots, requiring identical shapes (`IncompatibleShapeError` otherwise), as
performed by the DataItem `accumulate` operation of `dataitems.py`. -/
def slotAdd : PyObj → PyObj → Except GateError PyObj
  | .rawArray xs, .rawArray ys =>
    if xs.length = ys.length then .ok (.rawArray (List.zipWith (· + ·) xs ys))
    else .error .incompatibleShape
  | _, _ => .error .incompatibleShape

/-- Slotwise `slotAdd` over the payload tuples; arity mismatch is an
`IncompatibleShapeError`. -/
def slotAddList : List PyObj → List PyObj → Except GateError (List PyObj)
  | [], [] => .ok []
  | x :: xs, y :: ys => do
    let z ← slotAdd x y
    let zs ← slotAddList xs ys
    .ok (z :: zs)
  | _, _ => .error .incompatibleShape

/-- Modelled from the spec: `DataItemContainer.inplace_merge_with` dispatches
to the wrapped DataItem's `accumulate`, i.e. the elementwise sum per slot
with matching arity; the receiving container keeps its own metadata and
owner reference. -/
def ContainerData.inplace_merge_with (a b : ContainerData) :
    Except GateError ContainerData :=
  match a.data, b.data with
  | .tuple xs, .tuple ys =>
    if xs.length = ys.length then
      (slotAddList xs ys).map fun zs => ContainerData.mk a.owner (.tuple zs)
    else .error .incompatibleShape
  | _, _ => .error .incompatibleShape

/-- Modelled from the spec: `DataItemContainer.get_data(item_selector)`
returns the raw payload slot(s); a `None` selector returns the whole wrapped
structure, an integer selector picks that slot of the payload tuple. -/
def ContainerData.getData (c : ContainerData) : Option ItemId → Option PyObj
  | none => some c.data
  | some (.num n) =>
    match c.data with
    | .tuple xs => xs.get? n
    | _ => none
  | some (.str _) => none

/-- State of one `ActorOutput` object. User-info fields
(`belongs_to`, `output_filename`, `data_write_config`, `keep_data_in_memory`,
`keep_data_per_run`, `auto_merge`, `merge_method`) mirror the defaults
declared in `actoroutput.py`; `actor_type_name` and `default_suffix` stand
for `belongs_to_actor.type_name` and the variant's `default_suffix`;
`output_dir` is the global simulation output directory (boundary
collaborator); `data_per_run` and `merged_data` are the in-memory data
(`data_per_run` values may be the `None` tombstone, hence the inner
`Option`). -/
structure ActorOutputState where
  name : String
  belongs_to : String
  actor_type_name : String
  default_suffix : String
  output_dir : String
  output_filename : Option String
  data_write_config : List (ItemId × WriteEntry)
  keep_data_in_memory : Bool
  keep_data_per_run : Bool
  auto_merge : Bool
  merge_method : String
  data_per_run : List (Int × Option ContainerData)
  merged_data : Option ContainerData

/-- Python-dict lookup `k in d` / `d[k]` on the insertion-ordered model. -/
def dictLookup (d : List (Int × Option ContainerData)) (k : Int) :
    Option (Option ContainerData) :=
  (d.find? fun p => p.1 = k).map (·.2)

/-- Python-dict assignment `d[k] = v`: overwrite in place, else append. -/
def dictSet (d : List (Int × Option ContainerData)) (k : Int)
    (v : Option ContainerData) : List (Int × Option ContainerData) :=
  if d.any (fun p => p.1 = k) then
    d.map fun p => if p.1 = k then (k, v) else p
  else d ++ [(k, v)]

/-- Python `d.pop(k)` without default: `none` models the `KeyError`. -/
def dictPop (d : List (Int × Option ContainerData)) (k : Int) :
    Option (List (Int × Option ContainerData)) :=
  if d.any (fun p => p.1 = k) then some (d.filter fun p => ¬ p.1 = k)
  else none

/-- `ActorOutputBase.initialize_output_filename`: fatal when the filename is
empty or `None` while some slot has `write_to_disk=True`; an `"auto"`
filename is resolved to
`name ++ "_from_" ++ actor_type_name.toLower ++ "_" ++ actor_name ++ "." ++ default_suffix`;
anything else is left untouched. -/
def initialize_output_filename (st : ActorOutputState) :
    Except GateError ActorOutputState :=
  let write_to_disk_any := st.data_write_config.any fun p => p.2.write_to_disk
  if (st.output_filename = some "" ∨ st.output_filename = none) ∧
      write_to_disk_any = true then
    .error .fatalError
  else if st.output_filename = some "auto" then
    .ok { st with
          output_filename := some (st.name ++ "_from_" ++
            st.actor_type_name.toLower ++ "_" ++ st.belongs_to ++ "." ++
            st.default_suffix) }
  else
    .ok st

/-- The `output_filename` argument of `ActorOutputBase.get_output_path`: the
Python value is `None`, a string, or a Box of strings keyed by item. -/
inductive PyFilename where
  | pynone
  | pystr (s : String)
  | pybox (l : List (ItemId × String))

/-- Result of `get_output_path`: the Box collapses to its single value when
it has exactly one entry, stays a Box with more, and becomes `None` when
empty. -/
inductive PathResult where
  | single (p : String)
  | box (l : List (ItemId × String))
  | noPath

/-- The path computation of `ActorOutputBase.get_output_path` after
`initialize_output_filename` has run (from here on the method only reads the
state). `None` as effective filename hits `output_filename.items()` on
`None`, an `AttributeError`; a `which` that is neither `"merged"` nor
int-parseable is the fatal branch. -/
def base_output_paths (st : ActorOutputState) (which : Which)
    (output_filename : PyFilename) : Except GateError PathResult := do
  let effective_filename :=
    match output_filename with
    | .pynone =>
      match st.output_filename with
      | some s => PyFilename.pystr s
      | none => PyFilename.pynone
    | x => x
  let full_data_path ←
    match effective_filename with
    | .pystr s => Except.ok [(ItemId.num 0, sim_get_output_path st.output_dir s)]
    | .pybox l =>
      Except.ok (l.map fun p => (p.1, sim_get_output_path st.output_dir p.2))
    | .pynone => Except.error GateError.attributeError
  let full_data_path_which ←
    if which.eqStr "merged" then
      Except.ok full_data_path
    else
      match pyInt which with
      | none => Except.error GateError.fatalError
      | some run_index =>
        Except.ok (full_data_path.map fun p =>
          (p.1, insert_suffix_before_extension p.2
            (some ("run" ++ pyFormat04f run_index))))
  match full_data_path_which with
  | [] => .ok PathResult.noPath
  | [p] => .ok (PathResult.single p.2)
  | l => .ok (PathResult.box l)

/-- `ActorOutputBase.get_output_path(which, output_filename)`: first resolves
the output filename (the one state mutation of the method), then derives the
path(s); the result is paired with the post-resolution state. -/
def base_get_output_path (st : ActorOutputState) (which : Which)
    (output_filename : PyFilename) : Except GateError (PathResult × ActorOutputState) := do
  let st1 ← initialize_output_filename st
  let pr ← base_output_paths st1 which output_filename
  pure (pr, st1)

/-- `ActorOutputUsingDataItemContainer._get_suffix_for_item`: the suffix
registered for the identifier in `data_write_config`; an unknown identifier
is a fatal configuration error. -/
def get_suffix_for_item (st : ActorOutputState) (identifier : ItemId) :
    Except GateError (Option String) :=
  match st.data_write_config.find? (fun p => p.1 = identifier) with
  | some p => .ok p.2.suffix
  | none => .error .fatalError

/-- `compose_output_path_to_item` applied to `self.output_filename` as in
`get_output_filename`: a `None` filename makes the underlying path surgery
fail (`TypeError` on `Path(None)`). -/
def compose_output_filename_to_item (st : ActorOutputState) (item : ItemId) :
    Except GateError String := do
  let sfx ← get_suffix_for_item st item
  match st.output_filename with
  | some p => pure (insert_suffix_before_extension p sfx)
  | none => Except.error GateError.typeError

/-- `ActorOutputUsingDataItemContainer.get_output_filename(item)`: for
`"all"`, the Box of the per-item composed filenames over every
`data_write_config` key; otherwise the single composed filename. -/
def get_output_filename (st : ActorOutputState) (item : ItemId) :
    Except GateError PyFilename :=
  if item = ItemId.str "all" then do
    let l ← st.data_write_config.mapM fun p => do
      let path ← compose_output_filename_to_item st p.1
      pure (p.1, path)
    pure (PyFilename.pybox l)
  else do
    let path ← compose_output_filename_to_item st item
    pure (PyFilename.pystr path)

/-- `ActorOutputUsingDataItemContainer.get_output_path(which, item)`: with
`item=None` it delegates to the base method directly; otherwise it passes
the item-composed filename(s) down. The Python default for `item` is
`"all"`, i.e. `some (ItemId.str "all")` here. -/
def container_get_output_path (st : ActorOutputState) (which : Which)
    (item : Option ItemId) : Except GateError (PathResult × ActorOutputState) :=
  match item with
  | none => base_get_output_path st which .pynone
  | some i => do
    let ofn ← get_output_filename st i
    base_get_output_path st which ofn

/-- `ActorOutputRoot.get_output_path(*args, **kwargs)`: discards every
argument and calls the base method with `which="merged"`. -/
def root_get_output_path (st : ActorOutputState) (_which : Which)
    (_item : Option ItemId) : Except GateError (PathResult × ActorOutputState) :=
  base_get_output_path st (.str "merged") .pynone

/-- `ActorOutputCppImage.get_output_path(*args, **kwargs)`: identical
behaviour, discards every argument and resolves the merged path. -/
def cpp_image_get_output_path (st : ActorOutputState) (_which : Which)
    (_item : Option ItemId) : Except GateError (PathResult × ActorOutputState) :=
  base_get_output_path st (.str "merged") .pynone

/-- Identifier returned by `collect_data` alongside each container: a run
index or the literal `"merged"`. -/
inductive CollectId where
  | run (n : Int)
  | mergedId
deriving DecidableEq, Repr

/-- `ActorOutputUsingDataItemContainer.store_data(which, *data)`.
The embedding receives the varargs tuple `data` as `args`; exactly as in the
source, the `isinstance(data, self.data_container_class)` test inspects that
tuple — a tuple is never a container instance, so the as-is branch (which
would only re-attach the owner reference) is dead and the tuple is always
wrapped into a fresh container with `belongs_to = self`. An int-parseable
`which` stores under that run index, `"merged"` replaces the merged slot,
anything else is fatal. -/
def store_data (st : ActorOutputState) (which : Which) (args : List PyObj) :
    Except GateError ActorOutputState :=
  let dataObj := PyObj.tuple args
  let data_item : ContainerData :=
    match asContainer dataObj with
    | some c => { c with owner := st.name }
    | none => ContainerData.mk st.name dataObj
  if which.eqStr "merged" then
    .ok { st with merged_data := some data_item }
  else
    match pyInt which with
    | none => .error .fatalError
    | some run_index =>
      .ok { st with data_per_run := dictSet st.data_per_run run_index (some data_item) }

/-- `ActorOutputUsingDataItemContainer.merge_data(list_of_data)`: with the
`"sum"` merge method it folds `inplace_merge_with` over the list starting
from its head (empty list: `IndexError`; a `None` head: `AttributeError` on
`None.inplace_merge_with`; a `None` later element: `TypeError` in the data
layer); any other merge method falls off the function body, returning
Python `None`. -/
def merge_data (method : String) (l : List (Option ContainerData)) :
    Except GateError (Option ContainerData) :=
  if method = "sum" then
    match l with
    | [] => .error .indexError
    | d0 :: rest =>
      rest.foldlM
        (fun acc d =>
          match acc, d with
          | some a, some b => (a.inplace_merge_with b).map some
          | none, _ => .error .attributeError
          | some _, none => .error .typeError)
        d0
  else
    .ok none

/-- `ActorOutputUsingDataItemContainer.merge_into_merged_data(data)`: the
first merge initializes `merged_data` from the lone item, later merges fold
the item in via `merge_data`. -/
def merge_into_merged_data (st : ActorOutputState) (data : Option ContainerData) :
    Except GateError ActorOutputState :=
  match st.merged_data with
  | none => .ok { st with merged_data := data }
  | some m =>
    (merge_data st.merge_method [some m, data]).map fun md =>
      { st with merged_data := md }

/-- `ActorOutputUsingDataItemContainer.end_of_run(run_index)`: merge the
run's container into `merged_data` when `auto_merge`, then pop the run entry
when `keep_data_per_run` is false. The second component of the result is the
list of warnings emitted during the call (the source emits none on any
path). -/
def end_of_run (st : ActorOutputState) (run_index : Int) :
    Except GateError (ActorOutputState × List String) := do
  let st1 ←
    if st.auto_merge = true then
      match dictLookup st.data_per_run run_index with
      | none => Except.error GateError.keyError
      | some d => merge_into_merged_data st d
    else
      Except.ok st
  let st2 ←
    if st1.keep_data_per_run = false then
      match dictPop st1.data_per_run run_index with
      | none => Except.error GateError.keyError
      | some d => Except.ok { st1 with data_per_run := d }
    else
      Except.ok st1
  .ok (st2, [])

/-- `ActorOutputBase.close()`: with `keep_data_in_memory=False` the per-run
dictionary is emptied and the merged container dropped; otherwise the state
is untouched. -/
def close (st : ActorOutputState) : ActorOutputState :=
  if st.keep_data_in_memory = false then
    { st with data_per_run := [], merged_data := none }
  else
    st

/-- `ActorOutputUsingDataItemContainer.get_data_container(which)`:
`"merged"` returns `merged_data` (which may be Python `None`); an
int-parseable `which` returns the stored, non-`None` run container or is
fatal (missing run or tombstone); anything else is the fatal invalid-`which`
branch. -/
def get_data_container (st : ActorOutputState) (which : Which) :
    Except GateError (Option ContainerData) :=
  if which.eqStr "merged" then
    .ok st.merged_data
  else
    match pyInt which with
    | none => .error .fatalError
    | some run_index =>
      match dictLookup st.data_per_run run_index with
      | some (some c) => .ok (some c)
      | _ => .error .fatalError

/-- `ActorOutputUsingDataItemContainer.get_data(which, item)`: a `None`
container makes the method return Python `None` without any error; otherwise
the container's `get_data(item)` result is returned. -/
def get_data (st : ActorOutputState) (which : Which) (item : Option ItemId) :
    Except GateError (Option PyObj) := do
  let c ← get_data_container st which
  match c with
  | none => pure none
  | some c => pure (c.getData item)

/-- `ActorOutputUsingDataItemContainer.collect_data(which,
return_identifier=True)`: the recognized literals are `"merged"`,
`"all_runs"` and `"all"`; an int-parseable `which` selects that run's entry
(`KeyError` when absent); anything else is fatal. -/
def collect_data (st : ActorOutputState) (which : Which) :
    Except GateError (List (Option ContainerData) × List CollectId) :=
  if which.eqStr "merged" then
    .ok ([st.merged_data], [CollectId.mergedId])
  else if which.eqStr "all_runs" then
    .ok (st.data_per_run.map (·.2), st.data_per_run.map fun p => CollectId.run p.1)
  else if which.eqStr "all" then
    .ok (st.data_per_run.map (·.2) ++ [st.merged_data],
      (st.data_per_run.map fun p => CollectId.run p.1) ++ [CollectId.mergedId])
  else
    match pyInt which with
    | none => .error .fatalError
    | some ri =>
      match dictLookup st.data_per_run ri with
      | none => .error .keyError
      | some d => .ok ([d], [CollectId.run ri])

/-- The store-two-runs-then-finalize-both scenario from the spec's testable
properties: store the raw payload for run 0 and for run 1, then call
`end_of_run(0)` and `end_of_run(1)`. -/
def merge_scenario (st : ActorOutputState) (p0 p1 : List ℚ) :
    Except GateError ActorOutputState := do
  let st1 ← store_data st (.num 0) [.rawArray p0]
  let st2 ← store_data st1 (.num 1) [.rawArray p1]
  let (st3, _) ← end_of_run st2 0
  let (st4, _) ← end_of_run st3 1
  pure st4

/-- A concrete single-image actor output (e.g. a dose image) with the
default write config of a single-item container, base output filename
`dose.mhd`, an empty output directory, and the default retention policy
(`auto_merge=True`, `keep_data_per_run=False`, `keep_data_in_memory=True`). -/
def doseState : ActorOutputState :=
  { name := "dose_out", belongs_to := "dose_actor", actor_type_name := "DoseActor",
    default_suffix := "mhd", output_dir := "", output_filename := some "dose.mhd",
    data_write_config := [(ItemId.num 0, { suffix := none, write_to_disk := true })],
    keep_data_in_memory := true, keep_data_per_run := false, auto_merge := true,
    merge_method := "sum", data_per_run := [], merged_data := none }

/-- `doseState` with the retention flags of the C8 scenario:
`keep_data_per_run=True`, `auto_merge=False`. -/
def retainState : ActorOutputState :=
  { doseState with auto_merge := false, keep_data_per_run := true }

/-- `doseState` with both retention flags false and one stored run entry:
the silent-discard configuration of C3. -/
def dropState : ActorOutputState :=
  { doseState with
    auto_merge := false, keep_data_per_run := false,
    data_per_run := [(0, some (ContainerData.mk "dose_out" (.tuple [.rawArray [5]])))] }

/-- `doseState` with `keep_data_in_memory=False` and data present in both
the per-run dictionary and the merged slot, for the C4 close scenario. -/
def closeState : ActorOutputState :=
  { doseState with
    keep_data_in_memory := false,
    data_per_run := [(0, some (ContainerData.mk "dose_out" (.tuple [.rawArray [5]])))],
    merged_data := some (ContainerData.mk "dose_out" (.tuple [.rawArray [2]])) }

/-- An already-wrapped container as a caller might pass to `store_data`. -/
def preWrapped : ContainerData :=
  ContainerData.mk "other_owner" (.tuple [.rawArray [1, 2]])

/-- Elementwise sum of the constant payloads of the merge scenario. -/
theorem zipWith_add_replicate (n : Nat) :
    List.zipWith (· + ·) (List.replicate n (1 : ℚ)) (List.replicate n (3 : ℚ)) =
      List.replicate n (4 : ℚ) := by
  induction n with
  | zero => rfl
  | succ k ih => simp [List.replicate, ih]; norm_num

/-- Length of the filename generated by the `"auto"` branch of
`initialize_output_filename`: the fixed glue contributes 8 characters. -/
theorem auto_filename_length (a b c d : String) :
    (a ++ "_from_" ++ b ++ "_" ++ c ++ "." ++ d).length =
      a.length + b.length + c.length + d.length + 8 := by
  have h1 : ("_from_" : String).length = 6 := rfl
  have h2 : ("_" : String).length = 1 := rfl
  have h3 : ("." : String).length = 1 := rfl
  simp only [String.length_append, h1, h2, h3]
  omega

/-- The generated filename is never the empty string. -/
theorem auto_filename_ne_empty (a b c d : String) :
    ¬ (a ++ "_from_" ++ b ++ "_" ++ c ++ "." ++ d) = "" := by
  intro h
  have h' := congrArg String.length h
  rw [auto_filename_length] at h'
  have h0 : ("" : String).length = 0 := rfl
  omega

/-- The generated filename is never the literal `"auto"` again. -/
theorem auto_filename_ne_auto (a b c d : String) :
    ¬ (a ++ "_from_" ++ b ++ "_" ++ c ++ "." ++ d) = "auto" := by
  intro h
  have h' := congrArg String.length h
  rw [auto_filename_length] at h'
  have : ("auto" : String).length = 4 := rfl
  omega

/-- `initialize_output_filename` is idempotent on success: a second call on
the resolved state succeeds and changes nothing. -/
theorem initialize_output_filename_idem (st st' : ActorOutputState)
    (h : initialize_output_filename st = .ok st') :
    initialize_output_filename st' = .ok st' := by
  unfold initialize_output_filename at h ⊢
  by_cases h1 : (st.output_filename = some "" ∨ st.output_filename = none) ∧
      (st.data_write_config.any fun p => p.2.write_to_disk) = true
  · rw [if_pos h1] at h
    cases h
  · rw [if_neg h1] at h
    by_cases h2 : st.output_filename = some "auto"
    · rw [if_pos h2] at h
      injection h with h
      subst h
      rw [if_neg, if_neg]
      · simp [auto_filename_ne_auto]
      · intro hc
        rcases hc.1 with hc1 | hc1
        · simp at hc1
          exact auto_filename_ne_empty _ _ _ _ hc1
        · simp at hc1
    · rw [if_neg h2] at h
      injection h with h
      subst h
      rw [if_neg h1, if_neg h2]

/-- C1 (counterexample): on base output filename `dose.mhd`,
`get_output_path(3, item=None)` returns `dose_run3.000000.mhd` — the Python
`04f` float format renders the run index with six decimals — and that path
is not the `dose_run0003.mhd` the claim states. -/
theorem C1_run_suffix_counterexample :
    container_get_output_path doseState (.num 3) none =
      .ok (PathResult.single "dose_run3.000000.mhd", doseState) ∧
    ¬ ("dose_run3.000000.mhd" : String) = "dose_run0003.mhd" := by
  exact ⟨rfl, by decide⟩

/-- C1 (amended): for every ActorOutput whose base output filename is
`dose.mhd` (against an empty output directory), `get_output_path` with
`which=3` and `item=None` returns `dose_run3.000000.mhd`: the per-run suffix
is `run` followed by the width-4 float-style (`04f`) rendering of the run
index, which never zero-pads to 4 digits but appends `.000000`. -/
theorem C1_run_suffix_format (st : ActorOutputState)
    (h1 : st.output_filename = some "dose.mhd") (h2 : st.output_dir = "") :
    container_get_output_path st (.num 3) none =
      .ok (PathResult.single "dose_run3.000000.mhd", st) := by
  have hinit : initialize_output_filename st = .ok st := by
    unfold initialize_output_filename
    rw [h1]
    simp
  have hpaths : base_output_paths st (.num 3) .pynone =
      .ok (PathResult.single "dose_run3.000000.mhd") := by
    unfold base_output_paths
    rw [h1, h2]
    rfl
  show base_get_output_path st (.num 3) .pynone = _
  unfold base_get_output_path
  simp only [hinit, bind, Except.bind, hpaths, pure, Except.pure]

/-- C1 (witness for the amended theorem). -/
theorem C1_run_suffix_format_witness :
    container_get_output_path doseState (.num 3) none =
      .ok (PathResult.single "dose_run3.000000.mhd", doseState) :=
  C1_run_suffix_format doseState rfl rfl

/-- C10: `ActorOutputRoot.get_output_path` and
`ActorOutputCppImage.get_output_path` ignore their arguments: for every
state and all argument values they return exactly the merged output path of
the base class (no run suffix is ever inserted), so the result is
independent of the arguments. -/
theorem C10_root_cpp_always_merged (st : ActorOutputState)
    (which which' : Which) (item item' : Option ItemId) :
    root_get_output_path st which item =
        base_get_output_path st (.str "merged") .pynone ∧
      root_get_output_path st which item = root_get_output_path st which' item' ∧
      cpp_image_get_output_path st which item =
        base_get_output_path st (.str "merged") .pynone ∧
      cpp_image_get_output_path st which item =
        cpp_image_get_output_path st which' item' := by
  exact ⟨rfl, rfl, rfl, rfl⟩

/-- C7 (counterexample): an identifier that is not registered in the write
configuration does not silently yield an empty suffix — `_get_suffix_for_item`
takes the fatal configuration-error branch instead. -/
theorem C7_unknown_item_counterexample :
    get_suffix_for_item doseState (ItemId.str "bogus") = .error .fatalError ∧
    ¬ get_suffix_for_item doseState (ItemId.str "bogus") = .ok none := by
  exact ⟨rfl, fun h => Except.noConfusion h⟩

/-- C7 (amended): an item identifier absent from `data_write_config` makes
suffix derivation fail with the fatal configuration error (it is treated as
an error, not as a wildcard); only a registered identifier whose configured
suffix is `None` leads to the unmodified base path, since inserting a `None`
suffix leaves any path unchanged. -/
theorem C7_unknown_item_fatal (st : ActorOutputState) (identifier : ItemId)
    (h : st.data_write_config.find? (fun p => p.1 = identifier) = none) :
    get_suffix_for_item st identifier = .error .fatalError ∧
    ∀ p : String, insert_suffix_before_extension p none = p := by
  constructor
  · unfold get_suffix_for_item
    rw [h]
  · intro p
    rfl

/-- C7 (witness for the amended theorem). -/
theorem C7_unknown_item_fatal_witness :
    get_suffix_for_item doseState (ItemId.str "bogus") = .error .fatalError ∧
    ∀ p : String, insert_suffix_before_extension p none = p :=
  C7_unknown_item_fatal doseState (ItemId.str "bogus") rfl

/-- C5: a `which` token that is none of the literals recognized anywhere in
the addressing surface (`"merged"`, `"all_runs"`, `"all"`) and fails integer
parsing makes each of `get_output_path`, `collect_data` and `store_data`
take the fatal configuration-error branch (given a well-formed, non-`auto`
output filename so that path derivation reaches the `which` dispatch). -/
theorem C5_invalid_which_fatal (st : ActorOutputState) (s : String)
    (args : List PyObj) (fn : String)
    (hf : st.output_filename = some fn) (hne : ¬ fn = "") (hna : ¬ fn = "auto")
    (h1 : ¬ s = "merged") (h2 : ¬ s = "all_runs") (h3 : ¬ s = "all")
    (h4 : pyInt (.str s) = none) :
    base_get_output_path st (.str s) .pynone = .error .fatalError ∧
    collect_data st (.str s) = .error .fatalError ∧
    store_data st (.str s) args = .error .fatalError := by
  have heq : Which.eqStr (.str s) "merged" = false := by
    simp [Which.eqStr, h1]
  refine ⟨?_, ?_, ?_⟩
  · have hinit : initialize_output_filename st = .ok st := by
      unfold initialize_output_filename
      rw [hf]
      simp [hne, hna]
    have hpaths : base_output_paths st (.str s) .pynone =
        .error GateError.fatalError := by
      unfold base_output_paths
      rw [hf]
      simp only [bind, Except.bind, heq, Bool.false_eq_true, if_false, h4]
    unfold base_get_output_path
    simp only [hinit, bind, Except.bind, hpaths]
  · unfold collect_data
    simp [Which.eqStr, h1, h2, h3, h4]
  · unfold store_data
    simp only [heq, Bool.false_eq_true, if_false, h4]

/-- C5 (witness): the token `"bogus"` on a concrete output. -/
theorem C5_invalid_which_fatal_witness :
    base_get_output_path doseState (.str "bogus") .pynone = .error .fatalError ∧
    collect_data doseState (.str "bogus") = .error .fatalError ∧
    store_data doseState (.str "bogus") [] = .error .fatalError :=
  C5_invalid_which_fatal doseState "bogus" [] "dose.mhd" rfl
    (by decide) (by decide) (by decide) (by decide) (by decide) rfl

/-- C3 (counterexample): with `auto_merge=False` and `keep_data_per_run=False`
and a container stored for run 0, `end_of_run(0)` removes the run entry
without merging it (`merged_data` stays `None`) and emits no warning at all
— the data is discarded silently, contradicting the claim that a drop
without merge or retention comes with at least a warning. -/
theorem C3_silent_drop_counterexample :
    end_of_run dropState 0 =
      .ok ({ dropState with data_per_run := [] }, ([] : List String)) ∧
    ({ dropState with data_per_run := [] } : ActorOutputState).merged_data = none := by
  exact ⟨rfl, rfl⟩

/-- C3 (amended): when `auto_merge=False` and `keep_data_per_run=False`,
`end_of_run` silently discards the finalized run: the entry is removed from
`data_per_run`, `merged_data` (and everything else) is left unchanged, and
the list of warnings emitted by the call is empty. -/
theorem C3_silent_drop (st : ActorOutputState) (ri : Int)
    (h1 : st.auto_merge = false) (h2 : st.keep_data_per_run = false)
    (h3 : st.data_per_run.any (fun p => p.1 = ri) = true) :
    end_of_run st ri =
      .ok ({ st with data_per_run := st.data_per_run.filter fun p => ¬ p.1 = ri },
        ([] : List String)) := by
  unfold end_of_run dictPop
  simp only [h1, h2, h3, Bool.false_eq_true, if_false, if_true, bind,
    Except.bind, pure, Except.pure]

/-- C3 (witness for the amended theorem). -/
theorem C3_silent_drop_witness :
    end_of_run dropState 0 =
      .ok ({ dropState with
             data_per_run := dropState.data_per_run.filter fun p => ¬ p.1 = 0 },
        ([] : List String)) :=
  C3_silent_drop dropState 0 rfl rfl rfl

/-- C4 (counterexample): after `close()` on an output with
`keep_data_in_memory=False`, `get_data("merged")` does not fail — it
silently returns Python `None`, contradicting the claim that every
subsequent `get_data` call fails. -/
theorem C4_get_data_after_close_counterexample :
    get_data (close closeState) (.str "merged") none = .ok none ∧
    (close closeState).merged_data = none := by
  exact ⟨rfl, rfl⟩

/-- C4 (amended): after `close()` with `keep_data_in_memory=False`,
`data_per_run` is empty and `merged_data` is `None`; a subsequent `get_data`
on any run index fails with the fatal error, but `get_data("merged")`
returns Python `None` rather than failing. -/
theorem C4_close_drops_data (st : ActorOutputState)
    (h : st.keep_data_in_memory = false) :
    (close st).data_per_run = [] ∧ (close st).merged_data = none ∧
    (∀ ri : Int, ∀ item : Option ItemId,
      get_data (close st) (.num ri) item = .error .fatalError) ∧
    (∀ item : Option ItemId,
      get_data (close st) (.str "merged") item = .ok none) := by
  have hc : close st = { st with data_per_run := [], merged_data := none } := by
    unfold close
    rw [h]
    simp
  refine ⟨by rw [hc], by rw [hc], ?_, ?_⟩
  · intro ri item
    rw [hc]
    unfold get_data get_data_container
    simp [Which.eqStr, pyInt, dictLookup, bind, Except.bind, List.find?]
  · intro item
    rw [hc]
    unfold get_data get_data_container
    simp [Which.eqStr, bind, Except.bind, pure, Except.pure]

/-- C4 (witness for the amended theorem). -/
theorem C4_close_drops_data_witness :
    (close closeState).data_per_run = [] ∧
    (close closeState).merged_data = none ∧
    get_data (close closeState) (.num 0) none = .error .fatalError ∧
    get_data (close closeState) (.str "merged") none = .ok none :=
  ⟨(C4_close_drops_data closeState rfl).1,
   (C4_close_drops_data closeState rfl).2.1,
   (C4_close_drops_data closeState rfl).2.2.1 0 none,
   (C4_close_drops_data closeState rfl).2.2.2 none⟩

/-- C6: `store_data("merged", c)` called with an already-wrapped container
`c` does not store `c` as-is: because `data` is the varargs tuple, the
`isinstance` test fails (second conjunct) and the method wraps the tuple
holding `c` into a fresh container (first conjunct), whose wrapped data is
the one-element tuple around `c` rather than the payload of `c` (third
conjunct). This contradicts the method's own docstring, which promises that
an already-wrapped container is accepted; the branch that would store it
as-is is unreachable. -/
theorem C6_store_data_rewraps_container :
    store_data doseState (.str "merged") [preWrapped.toObj] =
      .ok { doseState with
            merged_data := some (ContainerData.mk "dose_out"
              (.tuple [preWrapped.toObj])) } ∧
    asContainer (PyObj.tuple [preWrapped.toObj]) = none ∧
    ¬ (PyObj.tuple [preWrapped.toObj]) = preWrapped.data := by
  refine ⟨rfl, rfl, ?_⟩
  intro h
  simp [preWrapped, ContainerData.toObj] at h

/-- C2: merge-across-runs scenario. With `auto_merge=True` and
`keep_data_per_run=False` on a fresh output (no stored runs, no merged data,
the default `"sum"` merge method), storing `[1.0]*N` for run 0 and `[3.0]*N`
for run 1 and finalizing both runs leaves `merged_data` holding exactly
`[4.0]*N` (the first `end_of_run` initializes `merged_data` from the lone
run item, the second folds the run in by elementwise sum) and removes both
entries from `data_per_run`. -/
theorem C2_merge_across_runs (st : ActorOutputState) (N : Nat)
    (ha : st.auto_merge = true) (hk : st.keep_data_per_run = false)
    (hm : st.merged_data = none) (hd : st.data_per_run = [])
    (hmm : st.merge_method = "sum") :
    merge_scenario st (List.replicate N 1) (List.replicate N 3) =
      .ok { st with
            data_per_run := [],
            merged_data := some (ContainerData.mk st.name
              (.tuple [.rawArray (List.replicate N 4)])) } := by
  simp [merge_scenario, store_data, end_of_run, merge_into_merged_data,
    merge_data, ContainerData.inplace_merge_with, slotAddList, slotAdd,
    dictSet, dictLookup, dictPop, asContainer, Which.eqStr, pyInt,
    bind, Except.bind, pure, Except.pure,
    ha, hk, hm, hd, hmm,
    List.find?, List.filter, Except.map,
    zipWith_add_replicate, show (1:ℚ)+3 = 4 by norm_num]

/-- C2 (witness): the scenario on a concrete output with `N = 3`. -/
theorem C2_merge_across_runs_witness :
    merge_scenario doseState (List.replicate 3 1) (List.replicate 3 3) =
      .ok { doseState with
            data_per_run := [],
            merged_data := some (ContainerData.mk doseState.name
              (.tuple [.rawArray (List.replicate 3 4)])) } :=
  C2_merge_across_runs doseState 3 rfl rfl rfl rfl rfl

/-- C8: retention scenario. With `keep_data_per_run=True` and
`auto_merge=False` on a fresh output, the same store-and-finalize sequence
changes nothing except `data_per_run`: `merged_data` is still `None` and the
two run entries hold the payloads `[1.0]*N` and `[3.0]*N` verbatim. -/
theorem C8_retention_scenario (st : ActorOutputState) (N : Nat)
    (ha : st.auto_merge = false) (hk : st.keep_data_per_run = true)
    (hm : st.merged_data = none) (hd : st.data_per_run = []) :
    merge_scenario st (List.replicate N 1) (List.replicate N 3) =
      .ok { st with
            data_per_run :=
              [(0, some (ContainerData.mk st.name (.tuple [.rawArray (List.replicate N 1)]))),
               (1, some (ContainerData.mk st.name (.tuple [.rawArray (List.replicate N 3)])))],
            merged_data := none } := by
  simp [merge_scenario, store_data, end_of_run, dictSet,
    asContainer, Which.eqStr, pyInt,
    bind, Except.bind, pure, Except.pure,
    ha, hk, hm, hd]

/-- C8 (witness): the scenario on a concrete output with `N = 2`. -/
theorem C8_retention_scenario_witness :
    merge_scenario retainState (List.replicate 2 1) (List.replicate 2 3) =
      .ok { retainState with
            data_per_run :=
              [(0, some (ContainerData.mk retainState.name (.tuple [.rawArray (List.replicate 2 1)]))),
               (1, some (ContainerData.mk retainState.name (.tuple [.rawArray (List.replicate 2 3)])))],
            merged_data := none } :=
  C8_retention_scenario retainState 2 rfl rfl rfl rfl

/-- C9: idempotence of path derivation. If
`get_output_path("merged", item=None)` succeeds, returning a path and the
post-resolution state, then calling it again on that state (no state change
in between) returns the identical path and leaves the state unchanged —
including when `output_filename` starts as `"auto"` and is resolved during
the first call. -/
theorem C9_get_output_path_idempotent (st st' : ActorOutputState) (p : PathResult)
    (h : container_get_output_path st (.str "merged") none = .ok (p, st')) :
    container_get_output_path st' (.str "merged") none = .ok (p, st') := by
  show base_get_output_path st' (.str "merged") .pynone = _
  have h' : base_get_output_path st (.str "merged") .pynone = .ok (p, st') := h
  unfold base_get_output_path at h' ⊢
  cases hinit : initialize_output_filename st with
  | error e =>
    rw [hinit] at h'
    simp [bind, Except.bind] at h'
  | ok st1 =>
    rw [hinit] at h'
    simp only [bind, Except.bind] at h'
    cases hpaths : base_output_paths st1 (.str "merged") .pynone with
    | error e =>
      rw [hpaths] at h'
      simp at h'
    | ok pr =>
      rw [hpaths] at h'
      simp only [pure, Except.pure] at h'
      injection h' with h''
      injection h'' with hp hs
      subst hp
      subst hs
      have hidem := initialize_output_filename_idem st st1 hinit
      rw [hidem]
      simp only [bind, Except.bind, hpaths, pure, Except.pure]

/-- C9 (witness): the theorem applied to a concrete first call shows the
second call returns the same path and state. -/
theorem C9_get_output_path_idempotent_witness :
    container_get_output_path doseState (.str "merged") none =
      .ok (PathResult.single "dose.mhd", doseState) := by
  have h : container_get_output_path doseState (.str "merged") none =
      .ok (PathResult.single "dose.mhd", doseState) := by
    rfl
  exact C9_get_output_path_idempotent doseState doseState
    (PathResult.single "dose.mhd") h
